import Mathlib

/-!
Verification development for the midicontroller program.

The embedding models the following parts of the source file:

* the pygame key and modifier constants used by the program (numeric
  values of the SDL key codes);
* the utility function clamp;
* the MIDI message constants and the message construction performed by
  midiout_on and midiout_off (a message is the list sent to the output
  device; the device itself is an external collaborator, so operations
  return the list of messages they send);
* the Layout data class and the five layout tables;
* the Controller class: its fields, its helper methods, handle_keyup and
  handle_keydown;
* the mainloop event dispatch, as a runner over a list of input events;
* the reference semantics of DisplayData.update_from, via an explicit
  store of set objects.
-/

/-! ### pygame constants (numeric values of the SDL key codes) -/

def K_a : Nat := 97
def K_b : Nat := 98
def K_c : Nat := 99
def K_d : Nat := 100
def K_e : Nat := 101
def K_f : Nat := 102
def K_g : Nat := 103
def K_h : Nat := 104
def K_i : Nat := 105
def K_j : Nat := 106
def K_k : Nat := 107
def K_l : Nat := 108
def K_m : Nat := 109
def K_n : Nat := 110
def K_o : Nat := 111
def K_p : Nat := 112
def K_q : Nat := 113
def K_r : Nat := 114
def K_s : Nat := 115
def K_t : Nat := 116
def K_u : Nat := 117
def K_v : Nat := 118
def K_w : Nat := 119
def K_x : Nat := 120
def K_y : Nat := 121
def K_z : Nat := 122
def K_0 : Nat := 48
def K_1 : Nat := 49
def K_2 : Nat := 50
def K_3 : Nat := 51
def K_4 : Nat := 52
def K_5 : Nat := 53
def K_6 : Nat := 54
def K_7 : Nat := 55
def K_8 : Nat := 56
def K_9 : Nat := 57
def K_COMMA : Nat := 44
def K_PERIOD : Nat := 46
def K_SLASH : Nat := 47
def K_SEMICOLON : Nat := 59
def K_QUOTE : Nat := 39
def K_LEFTBRACKET : Nat := 91
def K_RIGHTBRACKET : Nat := 93
def K_BACKSLASH : Nat := 92
def K_MINUS : Nat := 45
def K_EQUALS : Nat := 61
def K_TAB : Nat := 9
def K_ESCAPE : Nat := 27
def K_UP : Nat := 1073741906
def K_DOWN : Nat := 1073741905
def K_LEFT : Nat := 1073741904
def K_RIGHT : Nat := 1073741903

/-- pygame modifier mask for either shift key (KMOD_LSHIFT 0x1 or
KMOD_RSHIFT 0x2). -/
def KMOD_SHIFT : Nat := 3

/-! ### utils -/

/-- Source lines 11 to 14: return max when val is above max, min when val
is below min, otherwise val. -/
def clamp (val min max : Int) : Int :=
  if val > max then max
  else if val < min then min
  else val

/-! ### midiout -/

/-- Source line 92: the MIDI note-on status byte 0x90. -/
def NOTE_ON : Int := 144

/-- Source line 93: the MIDI note-off status byte 0x80. -/
def NOTE_OFF : Int := 128

/-- Source lines 95 to 96: the message list sent for a note-on. -/
def midiout_on (note velocity : Int) : List Int :=
  [NOTE_ON, note, velocity]

/-- Source lines 98 to 99: the message list sent for a note-off. -/
def midiout_off (note : Int) : List Int :=
  [NOTE_OFF, note, 0]

/-! ### layouts -/

/-- Source lines 114 to 117: a named key to base-note mapping. The Python
dict is embedded as an association list; each layout binds every key at
most once, so lookup agrees with the dict. -/
structure Layout where
  name : String
  mapping : List (Nat × Int)
deriving DecidableEq

/-- Source lines 120 to 173. -/
def LAYOUT_FOURTHS : Layout :=
  { name := "FOURTHS"
    mapping := [
      (K_z, 55), (K_x, 56), (K_c, 57), (K_v, 58), (K_b, 59),
      (K_n, 60), (K_m, 61), (K_COMMA, 62), (K_PERIOD, 63), (K_SLASH, 64),

      (K_a, 60), (K_s, 61), (K_d, 62), (K_f, 63), (K_g, 64),
      (K_h, 65), (K_j, 66), (K_k, 67), (K_l, 68), (K_SEMICOLON, 69),
      (K_QUOTE, 70),

      (K_q, 65), (K_w, 66), (K_e, 67), (K_r, 68), (K_t, 69),
      (K_y, 70), (K_u, 71), (K_i, 72), (K_o, 73), (K_p, 74),
      (K_LEFTBRACKET, 75), (K_RIGHTBRACKET, 76), (K_BACKSLASH, 77),

      (K_1, 70), (K_2, 71), (K_3, 72), (K_4, 73), (K_5, 74),
      (K_6, 75), (K_7, 76), (K_8, 77), (K_9, 78), (K_0, 79),
      (K_MINUS, 80), (K_EQUALS, 81)
    ] }

/-- Source lines 175 to 227. -/
def LAYOUT_FIFTHS : Layout :=
  { name := "FIFTHS"
    mapping := [
      (K_z, 53), (K_x, 54), (K_c, 55), (K_v, 56), (K_b, 57),
      (K_n, 58), (K_m, 59), (K_COMMA, 60), (K_PERIOD, 61), (K_SLASH, 62),

      (K_a, 60), (K_s, 61), (K_d, 62), (K_f, 63), (K_g, 64),
      (K_h, 65), (K_j, 66), (K_k, 67), (K_l, 68), (K_SEMICOLON, 69),
      (K_QUOTE, 70),

      (K_q, 67), (K_w, 68), (K_e, 69), (K_r, 70), (K_t, 71),
      (K_y, 72), (K_u, 73), (K_i, 74), (K_o, 75), (K_p, 76),
      (K_LEFTBRACKET, 77), (K_RIGHTBRACKET, 78), (K_BACKSLASH, 79),

      (K_1, 74), (K_2, 75), (K_3, 76), (K_4, 77), (K_5, 78),
      (K_6, 79), (K_7, 80), (K_8, 81), (K_9, 82), (K_0, 83),
      (K_MINUS, 84), (K_EQUALS, 85)
    ] }

/-- Source lines 229 to 269. -/
def LAYOUT_CHROMA : Layout :=
  { name := "CHROMA"
    mapping := [
      (K_q, 60), (K_w, 61), (K_e, 62), (K_r, 63), (K_t, 64),
      (K_y, 65), (K_u, 66), (K_i, 67), (K_o, 68), (K_p, 69),
      (K_LEFTBRACKET, 70), (K_RIGHTBRACKET, 71),

      (K_a, 72), (K_s, 73), (K_d, 74), (K_f, 75), (K_g, 76),
      (K_h, 77), (K_j, 78), (K_k, 79), (K_l, 80), (K_SEMICOLON, 81),
      (K_QUOTE, 82), (K_BACKSLASH, 83),

      (K_z, 84), (K_x, 85), (K_c, 86), (K_v, 87), (K_b, 88),
      (K_n, 89), (K_m, 90), (K_COMMA, 91), (K_PERIOD, 92), (K_SLASH, 93)
    ] }

/-- Source lines 271 to 324. -/
def LAYOUT_JANKO : Layout :=
  { name := "JANKO"
    mapping := [
      (K_z, 55), (K_x, 57), (K_c, 59), (K_v, 61), (K_b, 63),
      (K_n, 65), (K_m, 67), (K_COMMA, 69), (K_PERIOD, 71), (K_SLASH, 73),

      (K_a, 54), (K_s, 56), (K_d, 58), (K_f, 60), (K_g, 62),
      (K_h, 64), (K_j, 66), (K_k, 68), (K_l, 70), (K_SEMICOLON, 72),
      (K_QUOTE, 74),

      (K_q, 53), (K_w, 55), (K_e, 57), (K_r, 59), (K_t, 61),
      (K_y, 63), (K_u, 65), (K_i, 67), (K_o, 69), (K_p, 71),
      (K_LEFTBRACKET, 73), (K_RIGHTBRACKET, 75), (K_BACKSLASH, 77),

      (K_1, 52), (K_2, 54), (K_3, 56), (K_4, 58), (K_5, 60),
      (K_6, 62), (K_7, 64), (K_8, 66), (K_9, 68), (K_0, 70),
      (K_MINUS, 72), (K_EQUALS, 74)
    ] }

/-- Source lines 326 to 379. -/
def LAYOUT_JANKO_OCTAVE : Layout :=
  { name := "JANKO_OCTAVE"
    mapping := [
      (K_z, 55), (K_x, 57), (K_c, 59), (K_v, 61), (K_b, 63),
      (K_n, 65), (K_m, 67), (K_COMMA, 69), (K_PERIOD, 71), (K_SLASH, 73),

      (K_a, 54), (K_s, 56), (K_d, 58), (K_f, 60), (K_g, 62),
      (K_h, 64), (K_j, 66), (K_k, 68), (K_l, 70), (K_SEMICOLON, 72),
      (K_QUOTE, 74),

      (K_q, 67), (K_w, 69), (K_e, 71), (K_r, 73), (K_t, 75),
      (K_y, 77), (K_u, 79), (K_i, 81), (K_o, 83), (K_p, 85),
      (K_LEFTBRACKET, 87), (K_RIGHTBRACKET, 89), (K_BACKSLASH, 91),

      (K_1, 66), (K_2, 68), (K_3, 70), (K_4, 72), (K_5, 74),
      (K_6, 76), (K_7, 78), (K_8, 80), (K_9, 82), (K_0, 84),
      (K_MINUS, 86), (K_EQUALS, 88)
    ] }

/-! ### Controller -/

/-- Source lines 382 to 399: the mutable state of the Controller class.
The midiout collaborator is not stored; every operation instead returns
the list of messages it sends to it. -/
structure Controller where
  layouts : List Layout
  current_layout : Nat
  notes : Finset Int
  transpose : Int
  velocity : Int
  sustain : Bool
deriving DecidableEq

namespace Controller

/-- Source line 383: TRANSPOSE_RANGE = (0 - 55, 127 - 55). -/
def TRANSPOSE_RANGE : Int × Int := (0 - 55, 127 - 55)

/-- Source line 384: VELOCITY_RANGE = (0, 127). -/
def VELOCITY_RANGE : Int × Int := (0, 127)

/-- Source lines 386 to 399: the state built by the constructor. -/
def init : Controller :=
  { layouts := [LAYOUT_FOURTHS, LAYOUT_JANKO]
    current_layout := 0
    notes := ∅
    transpose := 0
    velocity := 112
    sustain := false }

/-- Source lines 401 to 403: the layout property. List.getD totalises the
Python index expression; every reachable state keeps the index in range. -/
def layout (c : Controller) : Layout :=
  c.layouts.getD c.current_layout { name := "", mapping := [] }

/-- Source lines 405 to 407: the base_note property. -/
def base_note (c : Controller) : List (Nat × Int) :=
  c.layout.mapping

/-- Source lines 409 to 410: membership of the key in the mapping. -/
def key_is_note (c : Controller) (key : Nat) : Bool :=
  (c.base_note.lookup key).isSome

/-- Source lines 412 to 413: base note of the key plus the transpose.
Option.getD totalises the Python dict access; all call sites are guarded
by key_is_note. -/
def note_from_key (c : Controller) (key : Nat) : Int :=
  (c.base_note.lookup key).getD 0 + c.transpose

/-- Source lines 419 to 421: send note-on, then add the note to the set. -/
def note_on (c : Controller) (note : Int) : Controller × List (List Int) :=
  ({ c with notes := insert note c.notes }, [midiout_on note c.velocity])

/-- Source lines 423 to 426: send note-off, then remove the note from the
set if it is present. -/
def note_off (c : Controller) (note : Int) : Controller × List (List Int) :=
  ({ c with notes := if note ∈ c.notes then c.notes.erase note else c.notes },
   [midiout_off note])

/-- One iteration of the loop body of the release method: a note_off
call, threading the accumulated list of sent messages. -/
def releaseStep (acc : Controller × List (List Int)) (note : Nat) :
    Controller × List (List Int) :=
  let r := acc.1.note_off (Int.ofNat note)
  (r.1, acc.2 ++ r.2)

/-- Source lines 415 to 417: note-off for every note produced by the
Python expression range(0, 127), that is 0 up to and including 126. -/
def release (c : Controller) : Controller × List (List Int) :=
  (List.range 127).foldl releaseStep (c, [])

/-- Source lines 429 to 430: advance the layout index modulo the layout
count. -/
def next_layout (c : Controller) : Controller :=
  { c with current_layout := (c.current_layout + 1) % c.layouts.length }

/-- Source lines 432 to 434. -/
def handle_keyup (c : Controller) (key : Nat) : Controller × List (List Int) :=
  if c.key_is_note key && !c.sustain then
    c.note_off (c.note_from_key key)
  else (c, [])

/-- Source lines 436 to 466: the key-down dispatch, with the branches in
source order. -/
def handle_keydown (c : Controller) (key modifiers : Nat) :
    Controller × List (List Int) :=
  let transpose_delta : Int := if modifiers &&& KMOD_SHIFT ≠ 0 then 12 else 1
  if modifiers &&& KMOD_SHIFT ≠ 0 ∧ key = K_j then
    (c.next_layout, [])
  else if c.key_is_note key then
    c.note_on (c.note_from_key key)
  else if key = K_UP then
    ({ c with velocity := clamp (c.velocity + 8) VELOCITY_RANGE.1 VELOCITY_RANGE.2 }, [])
  else if key = K_DOWN then
    ({ c with velocity := clamp (c.velocity - 8) VELOCITY_RANGE.1 VELOCITY_RANGE.2 }, [])
  else if key = K_LEFT then
    ({ c with transpose := clamp (c.transpose - transpose_delta) TRANSPOSE_RANGE.1 TRANSPOSE_RANGE.2 }, [])
  else if key = K_RIGHT then
    ({ c with transpose := clamp (c.transpose + transpose_delta) TRANSPOSE_RANGE.1 TRANSPOSE_RANGE.2 }, [])
  else if key = K_TAB then
    let c2 := { c with sustain := !c.sustain }
    if !c2.sustain then c2.release else (c2, [])
  else if key = K_ESCAPE then
    c.release
  else (c, [])

end Controller

/-! ### the event loop -/

/-- Source lines 495 to 504: the two kinds of keyboard event the
mainloop forwards to the Controller. -/
inductive Event where
  | keydown (key modifiers : Nat)
  | keyup (key : Nat)
deriving DecidableEq

/-- One iteration of the mainloop event dispatch (source lines 500 to
504), threading the accumulated list of sent messages. -/
def runStep (acc : Controller × List (List Int)) (e : Event) :
    Controller × List (List Int) :=
  match e with
  | .keydown key modifiers =>
      let r := acc.1.handle_keydown key modifiers
      (r.1, acc.2 ++ r.2)
  | .keyup key =>
      let r := acc.1.handle_keyup key
      (r.1, acc.2 ++ r.2)

/-- Process a list of events in order, as the mainloop does. -/
def Controller.run (c : Controller) (evs : List Event) :
    Controller × List (List Int) :=
  evs.foldl runStep (c, [])

/-- The states the Controller can be in after any sequence of key-down
and key-up events delivered by the mainloop. -/
inductive Reachable : Controller → Prop where
  | init : Reachable Controller.init
  | keydown (key modifiers : Nat) {c : Controller} :
      Reachable c → Reachable (c.handle_keydown key modifiers).1
  | keyup (key : Nat) {c : Controller} :
      Reachable c → Reachable (c.handle_keyup key).1

/-! ### reference semantics of the display snapshot -/

/-- Source lines 469 to 475: the fields of the DisplayData class. Python
binds attributes to object references; the notes field therefore holds a
reference (an object identity) into a store of set objects rather than a
set value. -/
structure DisplayData where
  notes : Nat
  velocity : Int
  transpose : Int
  sustain : Bool
  layout : String
deriving DecidableEq

/-- A heap of Python set objects addressed by object identity, together
with the reference held by the Controller attribute notes and the
DisplayData object. -/
structure World where
  store : Nat → Finset Int
  ctrlNotes : Nat
  display : DisplayData

/-- Source lines 477 to 482: DisplayData.update_from. The assignment
self.notes = controller.notes copies the reference to the set object,
not the set; the scalar fields are copied by value. -/
def World.update_from (w : World) (c : Controller) : World :=
  { w with display :=
      { notes := w.ctrlNotes
        velocity := c.velocity
        transpose := c.transpose
        sustain := c.sustain
        layout := c.layout.name } }

/-- Source line 421: self.notes.add(note) mutates the set object the
Controller attribute refers to, in place. -/
def World.ctrl_note_on_add (w : World) (note : Int) : World :=
  { w with store := fun r => if r = w.ctrlNotes then insert note (w.store r) else w.store r }

/-- The set of notes the display observes through its reference. -/
def World.displayNotes (w : World) : Finset Int :=
  w.store w.display.notes

/-! ### concrete scenario states -/

/-- Six transpose-right presses with the shift modifier held: each adds a
clamped step of 12, driving the transpose to its maximum of 72. -/
def evs72 : List Event :=
  [.keydown K_RIGHT KMOD_SHIFT, .keydown K_RIGHT KMOD_SHIFT,
   .keydown K_RIGHT KMOD_SHIFT, .keydown K_RIGHT KMOD_SHIFT,
   .keydown K_RIGHT KMOD_SHIFT, .keydown K_RIGHT KMOD_SHIFT]

/-- The state after evs72: transpose 72, everything else as at start. -/
def c72 : Controller := (Controller.init.run evs72).1

/-- From c72, press the z key: base note 55 plus transpose 72 gives the
sounding note 127, which enters the active set. -/
def stuck127 : Controller := (c72.handle_keydown K_z 0).1

/-- From c72, press the equals key: base note 81 plus transpose 72 gives
the sounding note 153, outside the MIDI range. -/
def c153 : Controller := (c72.handle_keydown K_EQUALS 0).1

/-- From c72, toggle sustain on and press the z key: note 127 is sounding
and sustained. -/
def cHeld : Controller := ((c72.handle_keydown K_TAB 0).1.handle_keydown K_z 0).1

/-- Release the z key while sustain is on. -/
def afterUp : Controller := (cHeld.handle_keyup K_z).1

/-- From the initial state, press the a key: its base note 60 is sounding. -/
def cA : Controller := (Controller.init.handle_keydown K_a 0).1

/-- A world in which the Controller set object (address 0) and the
DisplayData set object (address 1) are distinct and both empty, as right
after construction in mainloop. -/
def w0 : World :=
  { store := fun _ => ∅
    ctrlNotes := 0
    display := { notes := 1, velocity := 0, transpose := 0, sustain := false, layout := "" } }

/-! ### helper lemmas -/

lemma le_clamp (val min max : Int) (h : min ≤ max) : min ≤ clamp val min max := by
  unfold clamp
  split_ifs <;> omega

lemma clamp_le (val min max : Int) (h : min ≤ max) : clamp val min max ≤ max := by
  unfold clamp
  split_ifs <;> omega

lemma note_off_fst (c : Controller) (note : Int) :
    (c.note_off note).1 = { c with notes := c.notes.erase note } := by
  unfold Controller.note_off
  by_cases h : note ∈ c.notes
  · simp [h]
  · simp [h, Finset.erase_eq_of_not_mem h]

lemma releaseStep_eq (acc : Controller × List (List Int)) (note : Nat) :
    Controller.releaseStep acc note
      = ({ acc.1 with notes := acc.1.notes.erase (Int.ofNat note) },
         acc.2 ++ [midiout_off (Int.ofNat note)]) := by
  show ((acc.1.note_off (Int.ofNat note)).1, acc.2 ++ (acc.1.note_off (Int.ofNat note)).2) = _
  rw [note_off_fst]
  rfl

lemma release_foldl (l : List Nat) (c : Controller) (out : List (List Int)) :
    l.foldl Controller.releaseStep (c, out)
      = ({ c with notes := l.foldl (fun s n => s.erase (Int.ofNat n)) c.notes },
         out ++ l.map (fun n => midiout_off (Int.ofNat n))) := by
  induction l generalizing c out with
  | nil => simp
  | cons n l ih =>
      rw [List.foldl_cons, releaseStep_eq, ih]
      simp

lemma release_fst (c : Controller) :
    (c.release).1
      = { c with notes := (List.range 127).foldl (fun s n => s.erase (Int.ofNat n)) c.notes } := by
  unfold Controller.release
  rw [release_foldl]

/-! ### the reachable-state invariant -/

/-- Structural invariant of every reachable Controller state: the layout
list is the one built by the constructor, the layout index is in range,
and transpose and velocity are inside their clamp ranges. -/
def ControllerInv (c : Controller) : Prop :=
  c.layouts = [LAYOUT_FOURTHS, LAYOUT_JANKO] ∧
  c.current_layout < 2 ∧
  -55 ≤ c.transpose ∧ c.transpose ≤ 72 ∧
  0 ≤ c.velocity ∧ c.velocity ≤ 127

set_option maxHeartbeats 1000000 in
lemma inv_keydown (c : Controller) (key modifiers : Nat) (h : ControllerInv c) :
    ControllerInv (c.handle_keydown key modifiers).1 := by
  obtain ⟨hL, hI, ht1, ht2, hv1, hv2⟩ := h
  simp only [Controller.handle_keydown]
  split_ifs <;>
    first
      | (rw [release_fst]; exact ⟨hL, hI, ht1, ht2, hv1, hv2⟩)
      | exact ⟨hL, hI, ht1, ht2, hv1, hv2⟩
      | (refine ⟨hL, ?_, ht1, ht2, hv1, hv2⟩
         show (c.current_layout + 1) % c.layouts.length < 2
         rw [hL]
         exact Nat.mod_lt _ (by norm_num))
      | exact ⟨hL, hI, ht1, ht2,
          le_clamp _ 0 127 (by norm_num), clamp_le _ 0 127 (by norm_num)⟩
      | exact ⟨hL, hI,
          le_clamp _ (-55) 72 (by norm_num), clamp_le _ (-55) 72 (by norm_num), hv1, hv2⟩

lemma inv_keyup (c : Controller) (key : Nat) (h : ControllerInv c) :
    ControllerInv (c.handle_keyup key).1 := by
  obtain ⟨hL, hI, ht1, ht2, hv1, hv2⟩ := h
  simp only [Controller.handle_keyup]
  split_ifs
  · rw [note_off_fst]
    exact ⟨hL, hI, ht1, ht2, hv1, hv2⟩
  · exact ⟨hL, hI, ht1, ht2, hv1, hv2⟩

lemma reachable_inv (c : Controller) (h : Reachable c) : ControllerInv c := by
  induction h with
  | init => exact ⟨rfl, by decide, by decide, by decide, by decide, by decide⟩
  | keydown key modifiers _ ih => exact inv_keydown _ key modifiers ih
  | keyup key _ ih => exact inv_keyup _ key ih

lemma run_reachable_aux (evs : List Event) (acc : Controller × List (List Int))
    (h : Reachable acc.1) : Reachable (evs.foldl runStep acc).1 := by
  induction evs generalizing acc with
  | nil => exact h
  | cons e evs ih =>
      rw [List.foldl_cons]
      apply ih
      cases e with
      | keydown k m => exact Reachable.keydown k m h
      | keyup k => exact Reachable.keyup k h

lemma run_reachable (c : Controller) (h : Reachable c) (evs : List Event) :
    Reachable (c.run evs).1 :=
  run_reachable_aux evs (c, []) h

lemma control_not_note (c : Controller) (hL : c.layouts = [LAYOUT_FOURTHS, LAYOUT_JANKO])
    (hI : c.current_layout < 2) (key : Nat)
    (hk : key = K_UP ∨ key = K_DOWN ∨ key = K_LEFT ∨ key = K_RIGHT ∨
          key = K_TAB ∨ key = K_ESCAPE) :
    c.key_is_note key = false := by
  have hI2 : c.current_layout = 0 ∨ c.current_layout = 1 := by omega
  rcases hI2 with h | h <;> rcases hk with rfl | rfl | rfl | rfl | rfl | rfl <;>
    simp only [Controller.key_is_note, Controller.base_note, Controller.layout, hL, h] <;>
    decide

lemma handle_keydown_note (c : Controller) (key mods : Nat)
    (hk : c.key_is_note key = true) (h0 : ¬(mods &&& KMOD_SHIFT ≠ 0 ∧ key = K_j)) :
    c.handle_keydown key mods = c.note_on (c.note_from_key key) := by
  simp only [Controller.handle_keydown, h0, hk]
  simp

lemma handle_keydown_up (c : Controller) (mods : Nat)
    (hk : c.key_is_note K_UP = false) :
    (c.handle_keydown K_UP mods).1.velocity = clamp (c.velocity + 8) 0 127 := by
  have h1 : K_UP ≠ K_j := by decide
  simp [Controller.handle_keydown, hk, h1, Controller.VELOCITY_RANGE]

lemma handle_keydown_down (c : Controller) (mods : Nat)
    (hk : c.key_is_note K_DOWN = false) :
    (c.handle_keydown K_DOWN mods).1.velocity = clamp (c.velocity - 8) 0 127 := by
  have h1 : K_DOWN ≠ K_j := by decide
  have h2 : K_DOWN ≠ K_UP := by decide
  simp [Controller.handle_keydown, hk, h1, h2, Controller.VELOCITY_RANGE]

lemma handle_keydown_left (c : Controller) (mods : Nat)
    (hk : c.key_is_note K_LEFT = false) :
    (c.handle_keydown K_LEFT mods).1.transpose
      = clamp (c.transpose - (if mods &&& KMOD_SHIFT ≠ 0 then 12 else 1)) (-55) 72 := by
  have h1 : K_LEFT ≠ K_j := by decide
  have h2 : K_LEFT ≠ K_UP := by decide
  have h3 : K_LEFT ≠ K_DOWN := by decide
  simp [Controller.handle_keydown, hk, h1, h2, h3, Controller.TRANSPOSE_RANGE]

lemma handle_keydown_right (c : Controller) (mods : Nat)
    (hk : c.key_is_note K_RIGHT = false) :
    (c.handle_keydown K_RIGHT mods).1.transpose
      = clamp (c.transpose + (if mods &&& KMOD_SHIFT ≠ 0 then 12 else 1)) (-55) 72 := by
  have h1 : K_RIGHT ≠ K_j := by decide
  have h2 : K_RIGHT ≠ K_UP := by decide
  have h3 : K_RIGHT ≠ K_DOWN := by decide
  have h4 : K_RIGHT ≠ K_LEFT := by decide
  simp [Controller.handle_keydown, hk, h1, h2, h3, h4, Controller.TRANSPOSE_RANGE]

lemma note_on_fst (c : Controller) (note : Int) :
    (c.note_on note).1 = { c with notes := insert note c.notes } := rfl

lemma handle_keyup_noteoff (c : Controller) (key : Nat)
    (hk : c.key_is_note key = true) (hs : c.sustain = false) :
    c.handle_keyup key = c.note_off (c.note_from_key key) := by
  simp [Controller.handle_keyup, hk, hs]

/-! ### claims -/

set_option maxRecDepth 100000 in
/-- Claim C1, code-bug exhibit. The claim states that ReleaseAll sends
one note-off for every note number in 0 to 127 inclusive and always
leaves activeNotes empty. The release loop iterates range(0, 127), which
stops at 126: from the reachable state stuck127 (transpose 72, key z
held, so note 127 is active), the escape release sends 127 messages,
none of them a note-off for note 127, and note 127 stays in the active
set. -/
theorem C1_release_skips_note_127 :
    Reachable stuck127 ∧
    stuck127.notes = {127} ∧
    (stuck127.handle_keydown K_ESCAPE 0).1.notes = {127} ∧
    (stuck127.handle_keydown K_ESCAPE 0).2.length = 127 ∧
    midiout_off 127 ∉ (stuck127.handle_keydown K_ESCAPE 0).2 ∧
    midiout_off 126 ∈ (stuck127.handle_keydown K_ESCAPE 0).2 :=
  ⟨Reachable.keydown K_z 0 (run_reachable Controller.init Reachable.init evs72),
   by decide, by decide, by decide, by decide, by decide⟩

/-- Claim C2, code-bug exhibit. The claim states that the derived note
base plus transpose is clamped to 0 to 127 before the send call. From
the reachable state c72 (transpose 72), pressing the equals key (base
note 81) sends a note-on message for note 153, which is outside the
range. -/
theorem C2_unclamped_note_sent :
    Reachable c72 ∧ c72.transpose = 72 ∧
    (c72.handle_keydown K_EQUALS 0).2 = [midiout_on 153 112] ∧
    ¬((153 : Int) ≤ 127) :=
  ⟨run_reachable Controller.init Reachable.init evs72, by decide, by decide, by decide⟩

/-- Claim C3, code-bug exhibit. The claim states that every element of
activeNotes lies in 0 to 127 in every reachable state. The reachable
state c153 has 153 in its active set. -/
theorem C3_active_note_out_of_range :
    Reachable c153 ∧ (153 : Int) ∈ c153.notes ∧ ¬((153 : Int) ≤ 127) :=
  ⟨Reachable.keydown K_EQUALS 0 (run_reachable Controller.init Reachable.init evs72),
   by decide, by decide⟩

/-- Claim C4, counterexample. In the reachable state cA the a key is
held, so note 60 is active; the keys a and n both map to base note 60 in
the FOURTHS layout. Pressing and releasing the n key with sustain off
removes 60 from the active set, so the down-up pair does not leave
activeNotes unchanged when the derived note was already active. -/
theorem C4_counterexample :
    Reachable cA ∧ cA.sustain = false ∧ cA.key_is_note K_n = true ∧
    cA.notes = {60} ∧
    (((cA.handle_keydown K_n 0).1).handle_keyup K_n).1.notes = ∅ ∧
    (((cA.handle_keydown K_n 0).1).handle_keyup K_n).1.notes ≠ cA.notes :=
  ⟨Reachable.keydown K_a 0 Reachable.init,
   by decide, by decide, by decide, by decide, by decide⟩

/-- Claim C4, amended. For every key mapped in the active layout and
every state with sustain off in which the derived note base plus
transpose is not already active, a key-down immediately followed by the
key-up of the same key leaves activeNotes unchanged. -/
theorem C4_down_up_roundtrip (c : Controller) (key : Nat)
    (hs : c.sustain = false) (hk : c.key_is_note key = true)
    (hn : c.note_from_key key ∉ c.notes) :
    (((c.handle_keydown key 0).1).handle_keyup key).1.notes = c.notes := by
  have h0 : ¬((0 : Nat) &&& KMOD_SHIFT ≠ 0 ∧ key = K_j) := by
    rintro ⟨h1, -⟩
    exact h1 (by decide)
  rw [handle_keydown_note c key 0 hk h0, note_on_fst]
  have hk1 : ({ c with notes := insert (c.note_from_key key) c.notes } : Controller).key_is_note key = true := hk
  have hs1 : ({ c with notes := insert (c.note_from_key key) c.notes } : Controller).sustain = false := hs
  rw [handle_keyup_noteoff _ key hk1 hs1, note_off_fst]
  show (insert (c.note_from_key key) c.notes).erase (c.note_from_key key) = c.notes
  exact Finset.erase_insert hn

/-- Claim C4, witness for the amended round-trip at the initial state
and the a key. -/
theorem C4_down_up_roundtrip_witness :
    Controller.init.sustain = false ∧
    Controller.init.key_is_note K_a = true ∧
    Controller.init.note_from_key K_a ∉ Controller.init.notes ∧
    (((Controller.init.handle_keydown K_a 0).1).handle_keyup K_a).1.notes
      = Controller.init.notes :=
  ⟨rfl, by decide, by decide,
   C4_down_up_roundtrip Controller.init K_a rfl (by decide) (by decide)⟩

/-- Claim C5, counterexample. The claim states that no key with its
modifiers is simultaneously a note key of the active layout and a
control key. In the initial state the j key is a note key of the active
FOURTHS layout, and with shift held it is also the layout-cycle gesture;
dispatch takes the layout-cycle branch, so no note is played. -/
theorem C5_counterexample :
    Controller.init.key_is_note K_j = true ∧
    (KMOD_SHIFT &&& KMOD_SHIFT ≠ 0 ∧ K_j = K_j) ∧
    (Controller.init.handle_keydown K_j KMOD_SHIFT).1.current_layout = 1 ∧
    (Controller.init.handle_keydown K_j KMOD_SHIFT).2 = [] ∧
    (Controller.init.handle_keydown K_j KMOD_SHIFT).1.notes = Controller.init.notes :=
  ⟨by decide, ⟨by decide, rfl⟩, by decide, by decide, by decide⟩

/-- Claim C5, amended. At most one dispatch branch executes per key-down
event because the chain takes the first matching condition, but the note
keys and control keys are not disjoint: in every reachable state, the
arrow, tab and escape control keys are never note keys, while the j key
with shift held satisfies both the layout-cycle condition and the note
condition, and dispatch resolves that conflict in favour of the
layout-cycle branch, sending no message. -/
theorem C5_dispatch_priority (c : Controller) (h : Reachable c) (key mods : Nat) :
    ((key = K_UP ∨ key = K_DOWN ∨ key = K_LEFT ∨ key = K_RIGHT ∨
      key = K_TAB ∨ key = K_ESCAPE) → c.key_is_note key = false) ∧
    ((mods &&& KMOD_SHIFT ≠ 0 ∧ key = K_j) →
      c.key_is_note key = true ∧ c.handle_keydown key mods = (c.next_layout, [])) := by
  obtain ⟨hL, hI, -, -, -, -⟩ := reachable_inv c h
  constructor
  · intro hk
    exact control_not_note c hL hI key hk
  · rintro ⟨hsh, rfl⟩
    constructor
    · have hI2 : c.current_layout = 0 ∨ c.current_layout = 1 := by omega
      rcases hI2 with h0 | h0 <;>
        simp only [Controller.key_is_note, Controller.base_note, Controller.layout, hL, h0] <;>
        decide
    · simp [Controller.handle_keydown, hsh]

/-- Claim C5, witness for the amended dispatch statement at the initial
state, the j key and the shift modifier. -/
theorem C5_dispatch_priority_witness :
    Reachable Controller.init ∧
    (((K_j = K_UP ∨ K_j = K_DOWN ∨ K_j = K_LEFT ∨ K_j = K_RIGHT ∨
       K_j = K_TAB ∨ K_j = K_ESCAPE) → Controller.init.key_is_note K_j = false) ∧
     ((KMOD_SHIFT &&& KMOD_SHIFT ≠ 0 ∧ K_j = K_j) →
       Controller.init.key_is_note K_j = true ∧
       Controller.init.handle_keydown K_j KMOD_SHIFT = (Controller.init.next_layout, []))) :=
  ⟨Reachable.init, C5_dispatch_priority Controller.init Reachable.init K_j KMOD_SHIFT⟩

set_option maxRecDepth 100000 in
/-- Claim C6, code-bug exhibit. With sustain on, releasing the z key is
a no-op (no message, note 127 stays active), as the claim states; but at
the sustain-off toggle the release loop stops at note 126, so note 127
is neither removed from the active set nor sent a note-off, against the
claim. -/
theorem C6_sustained_note_not_released :
    cHeld.sustain = true ∧ cHeld.notes = {127} ∧
    (cHeld.handle_keyup K_z).2 = [] ∧
    afterUp.notes = {127} ∧
    (afterUp.handle_keydown K_TAB 0).1.sustain = false ∧
    (afterUp.handle_keydown K_TAB 0).1.notes = {127} ∧
    midiout_off 127 ∉ (afterUp.handle_keydown K_TAB 0).2 := by
  refine ⟨by decide, by decide, by decide, by decide, ?_, ?_, ?_⟩ <;> decide

/-- Claim C7. In every reachable state the transpose lies in the range
-55 to 72, and a transpose-left or transpose-right key-down sets it to
the clamped value one step away, the step being 12 with the shift
modifier and 1 without. -/
theorem C7_transpose_clamped (c : Controller) (h : Reachable c) (mods : Nat) :
    (-55 ≤ c.transpose ∧ c.transpose ≤ 72) ∧
    (c.handle_keydown K_LEFT mods).1.transpose
      = clamp (c.transpose - (if mods &&& KMOD_SHIFT ≠ 0 then 12 else 1)) (-55) 72 ∧
    (c.handle_keydown K_RIGHT mods).1.transpose
      = clamp (c.transpose + (if mods &&& KMOD_SHIFT ≠ 0 then 12 else 1)) (-55) 72 := by
  obtain ⟨hL, hI, ht1, ht2, -, -⟩ := reachable_inv c h
  exact ⟨⟨ht1, ht2⟩,
    handle_keydown_left c mods
      (control_not_note c hL hI _ (Or.inr (Or.inr (Or.inl rfl)))),
    handle_keydown_right c mods
      (control_not_note c hL hI _ (Or.inr (Or.inr (Or.inr (Or.inl rfl)))))⟩

/-- Claim C7, witness at the initial state with the shift modifier. -/
theorem C7_transpose_clamped_witness :
    Reachable Controller.init ∧
    ((-55 ≤ Controller.init.transpose ∧ Controller.init.transpose ≤ 72) ∧
     (Controller.init.handle_keydown K_LEFT KMOD_SHIFT).1.transpose
       = clamp (Controller.init.transpose -
           (if KMOD_SHIFT &&& KMOD_SHIFT ≠ 0 then 12 else 1)) (-55) 72 ∧
     (Controller.init.handle_keydown K_RIGHT KMOD_SHIFT).1.transpose
       = clamp (Controller.init.transpose +
           (if KMOD_SHIFT &&& KMOD_SHIFT ≠ 0 then 12 else 1)) (-55) 72) :=
  ⟨Reachable.init, C7_transpose_clamped Controller.init Reachable.init KMOD_SHIFT⟩

/-- Claim C8. In every reachable state the velocity lies in 0 to 127,
and a velocity key-down sets it to the clamped value eight away; from
127 a velocity-up stays at 127 and from 0 a velocity-down stays at 0. -/
theorem C8_velocity_clamped (c : Controller) (h : Reachable c) (mods : Nat) :
    (0 ≤ c.velocity ∧ c.velocity ≤ 127) ∧
    (c.handle_keydown K_UP mods).1.velocity = clamp (c.velocity + 8) 0 127 ∧
    (c.handle_keydown K_DOWN mods).1.velocity = clamp (c.velocity - 8) 0 127 ∧
    (c.velocity = 127 → (c.handle_keydown K_UP mods).1.velocity = 127) ∧
    (c.velocity = 0 → (c.handle_keydown K_DOWN mods).1.velocity = 0) := by
  obtain ⟨hL, hI, -, -, hv1, hv2⟩ := reachable_inv c h
  have e1 := handle_keydown_up c mods (control_not_note c hL hI _ (Or.inl rfl))
  have e2 := handle_keydown_down c mods (control_not_note c hL hI _ (Or.inr (Or.inl rfl)))
  refine ⟨⟨hv1, hv2⟩, e1, e2, ?_, ?_⟩
  · intro h127
    rw [e1, h127]
    decide
  · intro h0
    rw [e2, h0]
    decide

/-- Claim C8, witness at the initial state with no modifiers. -/
theorem C8_velocity_clamped_witness :
    Reachable Controller.init ∧
    ((0 ≤ Controller.init.velocity ∧ Controller.init.velocity ≤ 127) ∧
     (Controller.init.handle_keydown K_UP 0).1.velocity
       = clamp (Controller.init.velocity + 8) 0 127 ∧
     (Controller.init.handle_keydown K_DOWN 0).1.velocity
       = clamp (Controller.init.velocity - 8) 0 127 ∧
     (Controller.init.velocity = 127 →
       (Controller.init.handle_keydown K_UP 0).1.velocity = 127) ∧
     (Controller.init.velocity = 0 →
       (Controller.init.handle_keydown K_DOWN 0).1.velocity = 0)) :=
  ⟨Reachable.init, C8_velocity_clamped Controller.init Reachable.init 0⟩

/-- Claim C9, code-bug exhibit. The claim states the snapshot is a copy:
after update_from, a mutation of the Controller active set must not
change the notes already captured. In the embedding of the Python
reference semantics, update_from stores the reference of the Controller
set object into the display; the in-place add performed by a later
note-on is therefore observed through the snapshot, whose notes change
from empty to the singleton 60. -/
theorem C9_snapshot_aliases_active_notes :
    (w0.update_from Controller.init).display.notes = (w0.update_from Controller.init).ctrlNotes ∧
    (w0.update_from Controller.init).displayNotes = ∅ ∧
    ((w0.update_from Controller.init).ctrl_note_on_add 60).displayNotes = {60} ∧
    ({60} : Finset Int) ≠ ∅ := by
  refine ⟨rfl, by decide, by decide, by decide⟩

/-- Claim C10. The constructor installs exactly the two layouts FOURTHS
and JANKO; in every reachable state, cycling the layout twice restores
the layout index, the active layout is FOURTHS or JANKO, and it is never
FIFTHS, CHROMA or JANKO_OCTAVE. -/
theorem C10_two_layout_cycle (c : Controller) (h : Reachable c) :
    Controller.init.layouts = [LAYOUT_FOURTHS, LAYOUT_JANKO] ∧
    c.layouts = [LAYOUT_FOURTHS, LAYOUT_JANKO] ∧
    c.next_layout.next_layout.current_layout = c.current_layout ∧
    (c.layout = LAYOUT_FOURTHS ∨ c.layout = LAYOUT_JANKO) ∧
    c.layout ≠ LAYOUT_FIFTHS ∧ c.layout ≠ LAYOUT_CHROMA ∧
    c.layout ≠ LAYOUT_JANKO_OCTAVE := by
  obtain ⟨hL, hI, -, -, -, -⟩ := reachable_inv c h
  have hI2 : c.current_layout = 0 ∨ c.current_layout = 1 := by omega
  rcases hI2 with h0 | h0 <;>
    refine ⟨rfl, hL, ?_, ?_, ?_, ?_, ?_⟩ <;>
      simp only [Controller.next_layout, Controller.layout, hL, h0] <;> decide

/-- Claim C10, witness at the initial state. -/
theorem C10_two_layout_cycle_witness :
    Reachable Controller.init ∧
    (Controller.init.layouts = [LAYOUT_FOURTHS, LAYOUT_JANKO] ∧
     Controller.init.layouts = [LAYOUT_FOURTHS, LAYOUT_JANKO] ∧
     Controller.init.next_layout.next_layout.current_layout
       = Controller.init.current_layout ∧
     (Controller.init.layout = LAYOUT_FOURTHS ∨ Controller.init.layout = LAYOUT_JANKO) ∧
     Controller.init.layout ≠ LAYOUT_FIFTHS ∧ Controller.init.layout ≠ LAYOUT_CHROMA ∧
     Controller.init.layout ≠ LAYOUT_JANKO_OCTAVE) :=
  ⟨Reachable.init, C10_two_layout_cycle Controller.init Reachable.init⟩
